import Mathlib

/-!
Verification development for the 2D physics engine (CipherJon/2D-physics-engine).

This file shallowly embeds the parts of the Python source needed by the claims:
the math primitives (src/math/vec2.py, mat22.py, transform.py), the broadphase
sweep (src/collision/broadphase.py), the SAT narrowphase
(src/collision/sat.py), the contact solver (src/collision/contact.py,
src/contacts/contact_solver.py), the body (src/core/body.py) and the world
step loop (src/dynamics/world.py).

Modelling conventions:
- Python floats are modelled as rationals (exact arithmetic); float sqrt is
  modelled by ratSqrt, which is exact whenever the true square root is
  rational (every concrete input used below has that property).
- Python exceptions are modelled by the PyErr type and Except PyErr results.
  A raised exception discards the partially mutated state; no theorem below
  depends on state observed after an exception.
- Python object identity (id(), default __eq__) is modelled by structural
  equality of the records; distinct live objects are modelled by records that
  differ in at least one field.
-/

set_option maxRecDepth 100000

/-- Python exception kinds raised by the embedded code paths. -/
inductive PyErr where
  | attributeError
  | stopIteration
  | typeError
  | valueError
  | zeroDivisionError
deriving DecidableEq, Repr

instance {ε α : Type} [DecidableEq ε] [DecidableEq α] : DecidableEq (Except ε α) :=
  fun x y =>
    match x, y with
    | .ok a, .ok b =>
      if h : a = b then .isTrue (by rw [h]) else .isFalse (by simp [h])
    | .error a, .error b =>
      if h : a = b then .isTrue (by rw [h]) else .isFalse (by simp [h])
    | .ok _, .error _ => .isFalse (by simp)
    | .error _, .ok _ => .isFalse (by simp)

/-- Rational square root, modelling math.sqrt: Int.sqrt/Nat.sqrt on the
reduced numerator and denominator.  It agrees with the real square root
exactly when that root is rational, which holds on every concrete input
evaluated in this file. -/
def ratSqrt (q : ℚ) : ℚ :=
  (Int.sqrt q.num : ℚ) / (Nat.sqrt q.den : ℚ)

/-- Vec2 from src/math/vec2.py: a pair of coordinates. -/
structure Vec2 where
  x : ℚ
  y : ℚ
deriving DecidableEq, Repr

namespace Vec2

/-- Vec2.zero() -/
def zero : Vec2 := ⟨0, 0⟩

/-- Vec2.__add__ with a Vec2 argument. -/
def add (a b : Vec2) : Vec2 := ⟨a.x + b.x, a.y + b.y⟩

/-- Vec2.__sub__ with a Vec2 argument. -/
def sub (a b : Vec2) : Vec2 := ⟨a.x - b.x, a.y - b.y⟩

/-- Vec2.__neg__. -/
def neg (a : Vec2) : Vec2 := ⟨-a.x, -a.y⟩

/-- Vec2.__mul__ with a scalar argument (and Vec2.__rmul__, which computes
the same componentwise product). -/
def smul (a : Vec2) (s : ℚ) : Vec2 := ⟨a.x * s, a.y * s⟩

/-- Vec2.__truediv__ with a scalar argument. -/
def sdiv (a : Vec2) (s : ℚ) : Vec2 := ⟨a.x / s, a.y / s⟩

/-- Vec2.dot. -/
def dot (a b : Vec2) : ℚ := a.x * b.x + a.y * b.y

/-- Vec2.cross (2D scalar cross product). -/
def cross (a b : Vec2) : ℚ := a.x * b.y - a.y * b.x

/-- Vec2.magnitude_squared. -/
def magnitudeSquared (a : Vec2) : ℚ := a.x ^ 2 + a.y ^ 2

/-- Vec2.magnitude, via the rational model of math.sqrt. -/
def magnitude (a : Vec2) : ℚ := ratSqrt (a.x ^ 2 + a.y ^ 2)

/-- Vec2.normalize: a zero-magnitude vector normalizes to (0, 0). -/
def normalize (a : Vec2) : Vec2 :=
  let mag := a.magnitude
  if mag = 0 then ⟨0, 0⟩ else ⟨a.x / mag, a.y / mag⟩

end Vec2

instance : Add Vec2 := ⟨Vec2.add⟩
instance : Sub Vec2 := ⟨Vec2.sub⟩
instance : Neg Vec2 := ⟨Vec2.neg⟩

/-- AABB from src/core/aabb.py, with the back-reference to the owning body
modelled as an index into the world body list (0 when absent). -/
structure AABB where
  lowerBound : Vec2
  upperBound : Vec2
  bodyIdx : ℕ
deriving DecidableEq, Repr

/-- Broadphase._aabb_overlap: closed-interval overlap on both axes. -/
def aabbOverlap (a b : AABB) : Bool :=
  a.lowerBound.x ≤ b.upperBound.x ∧ a.upperBound.x ≥ b.lowerBound.x ∧
    a.lowerBound.y ≤ b.upperBound.y ∧ a.upperBound.y ≥ b.lowerBound.y

/-- Tags each list element with its position, starting from k.  This models
Python object identities of the AABBs handed to the broadphase: distinct
live objects have distinct id() values, modelled by distinct indices. -/
def tagFrom (k : ℕ) : List AABB → List (ℕ × AABB)
  | [] => []
  | a :: l => (k, a) :: tagFrom (k + 1) l

/-- The order-independent pair key tuple(sorted((id_i, id_j))) used by
Broadphase.update, with indices standing for object ids. -/
def pairKey (i j : ℕ) : ℕ × ℕ := (min i j, max i j)

/-- Comparison key of Broadphase.update's sort: lower_bound.x. -/
def aabbKeyLe (a b : ℕ × AABB) : Prop :=
  a.2.lowerBound.x ≤ b.2.lowerBound.x

instance : DecidableRel aabbKeyLe := fun a b =>
  inferInstanceAs (Decidable (a.2.lowerBound.x ≤ b.2.lowerBound.x))

instance : IsTotal (ℕ × AABB) aabbKeyLe :=
  ⟨fun a b => le_total a.2.lowerBound.x b.2.lowerBound.x⟩

instance : IsTrans (ℕ × AABB) aabbKeyLe :=
  ⟨fun _ _ _ hab hbc => le_trans hab hbc⟩

/-- The inner scan of Broadphase.update for a fixed aabb_i over the
subsequent sorted AABBs, with the early break once
upper_i.x < lower_j.x. -/
def sweepScan (a : ℕ × AABB) : List (ℕ × AABB) → List (ℕ × ℕ)
  | [] => []
  | b :: rest =>
    if a.2.upperBound.x < b.2.lowerBound.x then []
    else
      (if aabbOverlap a.2 b.2 then [pairKey a.1 b.1] else []) ++ sweepScan a rest

/-- The outer loop of Broadphase.update over the sorted AABB list. -/
def sweep : List (ℕ × AABB) → List (ℕ × ℕ)
  | [] => []
  | a :: rest => sweepScan a rest ++ sweep rest

/-- Broadphase.update followed by get_potential_pairs: sort the AABBs by
lower_bound.x (Python sorted and insertionSort are both stable) and emit
the pair key for every pair that overlaps on both axes, scanning each
aabb_i forward only while lower_j.x ≤ upper_i.x. -/
def broadphasePairs (aabbs : List AABB) : List (ℕ × ℕ) :=
  sweep (List.insertionSort aabbKeyLe (tagFrom 0 aabbs))

/-- SAT.SEPARATION_TOLERANCE from src/collision/sat.py. -/
def SEPARATION_TOLERANCE : ℚ := 5 / 1000

/-- SAT.PENETRATION_TOLERANCE from src/collision/sat.py. -/
def PENETRATION_TOLERANCE : ℚ := 1 / 100

/-- The consecutive vertex pairs (current, next) of a closed vertex ring,
as enumerated by the for-loops of src/collision/sat.py. -/
def ringEdges (vs : List Vec2) : List (Vec2 × Vec2) :=
  vs.zip (vs.rotate 1)

/-- SAT._find_axes: for each ring edge, the normalized perpendicular
Vec2(-edge.y, edge.x).normalize(). -/
def findAxes (vs : List Vec2) : List Vec2 :=
  (ringEdges vs).map fun e =>
    Vec2.normalize ⟨-((e.2 - e.1).y), (e.2 - e.1).x⟩

/-- SAT._project_vertices: minimum and maximum dot product with the axis.
The source starts from (inf, -inf); it is only ever applied to nonempty
vertex lists, for which the fold below computes the same pair. -/
def projectMinMax (vs : List Vec2) (axis : Vec2) : ℚ × ℚ :=
  match vs with
  | [] => (0, 0)
  | v :: rest =>
    rest.foldl (fun acc w => (min acc.1 (w.dot axis), max acc.2 (w.dot axis)))
      (v.dot axis, v.dot axis)

/-- The per-axis overlap min(max1, max2) - max(min1, min2) computed by
SAT.find_minimum_translation_vector. -/
def axisOverlap (v1 v2 : List Vec2) (axis : Vec2) : ℚ :=
  let p1 := projectMinMax v1 axis
  let p2 := projectMinMax v2 axis
  min p1.2 p2.2 - max p1.1 p2.1

/-- The axis loop of SAT.find_minimum_translation_vector: early return of
the zero vector when an axis shows overlap < -SEPARATION_TOLERANCE, else
keep the axis with the strictly smallest overlap seen so far (none models
the initial min_overlap = inf). -/
def mtvLoop (v1 v2 : List Vec2) : List Vec2 → Option ℚ → Vec2 → Vec2
  | [], _, mtv => mtv
  | axis :: rest, best, mtv =>
    let o := axisOverlap v1 v2 axis
    if o < -SEPARATION_TOLERANCE then Vec2.zero
    else
      match best with
      | none => mtvLoop v1 v2 rest (some o) (axis.smul o)
      | some m =>
        if o < m then mtvLoop v1 v2 rest (some o) (axis.smul o)
        else mtvLoop v1 v2 rest best mtv

/-- SAT.find_minimum_translation_vector over the axes of the concatenated
vertex ring vertices1 + vertices2. -/
def findMinimumTranslationVector (s1 s2 : List Vec2) : Vec2 :=
  mtvLoop s1 s2 (findAxes (s1 ++ s2)) none Vec2.zero

/-- The touching-detection loop in SAT.get_collision_manifold: the first
test axis whose absolute overlap is below PENETRATION_TOLERANCE yields a
synthetic mtv of length PENETRATION_TOLERANCE. -/
def touchingLoop (v1 v2 : List Vec2) : List Vec2 → Vec2
  | [] => Vec2.zero
  | axis :: rest =>
    if |axisOverlap v1 v2 axis| < PENETRATION_TOLERANCE then
      axis.smul PENETRATION_TOLERANCE
    else touchingLoop v1 v2 rest

/-- SAT._is_point_in_shape: even-odd ray crossing over the ring edges.  The
division is evaluated only under the guard, which forces the two y
coordinates to differ. -/
def isPointInShape (p : Vec2) (vs : List Vec2) : Bool :=
  (ringEdges vs).foldl
    (fun inside e =>
      if ((decide (e.1.y > p.y)) != (decide (e.2.y > p.y))) &&
          decide (p.x < (e.2.x - e.1.x) * (p.y - e.1.y) / (e.2.y - e.1.y) + e.1.x)
      then !inside else inside)
    false

/-- Manifold from src/collision/manifold.py. -/
structure Manifold where
  normal : Vec2
  depth : ℚ
  points : List Vec2
deriving DecidableEq, Repr

/-- SAT.get_collision_manifold: minimum translation vector, the touching
fallback over the first four vertices of each shape, the small-mtv
renormalization, and the contact points from mutual point-in-shape tests. -/
def getCollisionManifold (s1 s2 : List Vec2) : Option Manifold :=
  let mtv0 := findMinimumTranslationVector s1 s2
  let mtv1 :=
    if mtv0 = Vec2.zero then touchingLoop s1 s2 (findAxes (s1.take 4 ++ s2.take 4))
    else mtv0
  if mtv1 = Vec2.zero then none
  else
    let mtv2 :=
      if mtv1.magnitude < PENETRATION_TOLERANCE then
        (Vec2.normalize mtv1).smul PENETRATION_TOLERANCE
      else mtv1
    some
      { normal := Vec2.normalize mtv2
        depth := mtv2.magnitude
        points := s1.filter (fun v => isPointInShape v s2) ++
          s2.filter (fun v => isPointInShape v s1) }

/-- Constants from src/common/constants.py. -/
def BAUMGARTE : ℚ := 4 / 10

/-- POSITION_SLOP from src/common/constants.py. -/
def POSITION_SLOP : ℚ := 2 / 100

/-- STATIC_FRICTION from src/common/constants.py. -/
def STATIC_FRICTION : ℚ := 6 / 10

/-- DYNAMIC_FRICTION from src/common/constants.py. -/
def DYNAMIC_FRICTION : ℚ := 4 / 10

/-- Shape, the tagged variant of src/core/circle.py and src/core/polygon.py.
Only the fields read by the embedded paths are kept; a circle is
(center, radius), a polygon its local vertex ring. -/
inductive Shape where
  | circle (center : Vec2) (radius : ℚ)
  | polygon (vertices : List Vec2)
deriving DecidableEq, Repr

/-- Body from src/core/body.py.  is_sleeping is deliberately absent:
Body.__init__ never assigns it and no other code does, so every Python
attribute access body.is_sleeping raises AttributeError.  inertia none
models the float('inf') stored for static bodies.  restitution is the
dynamically added attribute read via getattr in Contact.resolve; none
models its absence (Body.__init__ does not set it). -/
structure Body where
  shape : Shape
  mass : ℚ
  position : Vec2
  velocity : Vec2
  angularVelocity : ℚ
  orientation : ℚ
  isStatic : Bool
  inverseMass : ℚ
  inertia : Option ℚ
  inverseInertia : ℚ
  force : Vec2
  torque : ℚ
  transformPosition : Vec2
  transformRotation : ℚ
  restitution : Option ℚ
deriving DecidableEq, Repr

namespace Body

/-- Shape.get_inertia dispatch: Circle.get_inertia is 0.5*mass*r^2;
Polygon.get_inertia calls get_transformed_vertices, whose transform_point
call always raises TypeError (see transformPoint below). -/
def shapeGetInertia (s : Shape) (mass : ℚ) : Except PyErr ℚ :=
  match s with
  | .circle _ radius => .ok (1 / 2 * mass * radius ^ 2)
  | .polygon _ => .error .typeError

/-- Body.__init__ from src/core/body.py.  1.0/mass and 1.0/inertia raise
ZeroDivisionError on zero denominators (Python float division). -/
def init (shape : Shape) (mass : ℚ) (position velocity : Vec2)
    (angularVelocity orientation : ℚ) (isStatic : Bool) : Except PyErr Body := do
  let inverseMass ← if isStatic then pure 0
    else if mass = 0 then Except.error PyErr.zeroDivisionError else pure (1 / mass)
  let inertia ← if isStatic then pure (none : Option ℚ)
    else do pure (some (← shapeGetInertia shape mass))
  let inverseInertia ← if isStatic then pure 0
    else match inertia with
      | none => pure 0
      | some i => if i = 0 then Except.error PyErr.zeroDivisionError else pure (1 / i)
  .ok
    { shape := shape, mass := mass, position := position, velocity := velocity
      angularVelocity := angularVelocity, orientation := orientation
      isStatic := isStatic, inverseMass := inverseMass, inertia := inertia
      inverseInertia := inverseInertia, force := Vec2.zero, torque := 0
      transformPosition := position, transformRotation := 0, restitution := none }

/-- Body.apply_force: force += f; torque += (point - position) x f. -/
def applyForce (b : Body) (f point : Vec2) : Body :=
  { b with force := b.force + f, torque := b.torque + (point - b.position).cross f }

/-- Body.integrate_velocity from src/core/body.py: despite its name it adds
velocity*dt to the position and angular_velocity*dt to the orientation,
and never reads the force accumulator or changes the velocity. -/
def integrateVelocity (b : Body) (dt : ℚ) : Body :=
  if b.isStatic then b
  else
    { b with position := b.position + b.velocity.smul dt
             orientation := b.orientation + b.angularVelocity * dt }

/-- Body.integrate_position: position += velocity * dt. -/
def integratePosition (b : Body) (dt : ℚ) : Body :=
  if b.isStatic then b
  else { b with position := b.position + b.velocity.smul dt }

/-- Body.get_aabb calls self.shape.get_aabb(body=self).  Circle.get_aabb
returns the box around body.position + center with half-width radius;
Polygon.get_aabb accepts no body keyword argument, so the call raises
TypeError. -/
def getAabb (b : Body) (idx : ℕ) : Except PyErr AABB :=
  match b.shape with
  | .circle center radius =>
    let c := b.position + center
    .ok ⟨⟨c.x - radius, c.y - radius⟩, ⟨c.x + radius, c.y + radius⟩, idx⟩
  | .polygon _ => .error .typeError

end Body

/-- Contact from src/collision/contact.py. -/
structure Contact where
  normal : Vec2
  penetration : ℚ
  contactPoint : Vec2
  restitution : ℚ
  friction : ℚ
  persistent : Bool
  normalImpulse : ℚ
  tangentImpulse : ℚ
  lastSeparation : ℚ
deriving DecidableEq, Repr

/-- Contact.__init__ defaults: restitution 0.0, friction DYNAMIC_FRICTION,
persistent True, zero accumulated impulses. -/
def Contact.mk0 (normal : Vec2) (penetration : ℚ) (contactPoint : Vec2) : Contact :=
  { normal := normal, penetration := penetration, contactPoint := contactPoint
    restitution := 0, friction := DYNAMIC_FRICTION, persistent := true
    normalImpulse := 0, tangentImpulse := 0, lastSeparation := 0 }

/-- The state handled by Contact.resolve: the contact record and the two
bodies it references (the source mutates them through the stored
references; the model passes and returns them explicitly). -/
structure ContactState where
  contact : Contact
  bodyA : Body
  bodyB : Body
deriving DecidableEq, Repr

/-- The Baumgarte velocity bias computed by Contact.resolve:
-BAUMGARTE / dt * max(0.0, penetration + POSITION_SLOP).  Note the sign:
the source adds POSITION_SLOP to the penetration. -/
def resolveBias (penetration dt : ℚ) : ℚ :=
  -BAUMGARTE / dt * max 0 (penetration + POSITION_SLOP)

/-- Contact.resolve from src/collision/contact.py, lines 70-180, translated
branch for branch.  getattr(body, "restitution", default) is the optional
restitution attribute.  The relative velocity is computed once at entry
and reused for the friction solve, exactly as in the source. -/
def Contact.resolve (s : ContactState) (dt : ℚ) : ContactState :=
  let c := s.contact
  let a := s.bodyA
  let b := s.bodyB
  let rel := b.velocity - a.velocity
  let vn := rel.dot c.normal
  let eA := a.restitution.getD c.restitution
  let eB := b.restitution.getD c.restitution
  let e := min eA eB
  let invMassSum := a.inverseMass + b.inverseMass
  if |invMassSum| < 1 / 1000000 then s
  else
    let bias := resolveBias c.penetration dt
    let j0 := -(1 + e) * vn + bias + c.normalImpulse
    let j1 := if |vn| < 1 / 10 ∧ c.penetration > 1 / 100 then max j0 (1 / 2) else j0
    let j2 := if c.penetration > 1 / 100 ∧ vn < 1 / 10 then max j1 (1 / 2) else j1
    let j := max j2 0
    if vn > 1 / 100 then { s with contact := { c with normalImpulse := 0 } }
    else
      let a1 := { a with velocity := a.velocity - (c.normal.smul j).smul a.inverseMass }
      let b1 := { b with velocity := b.velocity + (c.normal.smul j).smul b.inverseMass }
      let c1 := { c with normalImpulse := j }
      let t : Vec2 := ⟨-c.normal.y, c.normal.x⟩
      let vt := rel.dot t
      if |vt| > 1 / 1000000 then
        let mu := min STATIC_FRICTION DYNAMIC_FRICTION
        let maxFriction := j * mu
        let f0 := -vt / invMassSum
        let f := max (-maxFriction) (min maxFriction f0)
        let a2 := { a1 with velocity := a1.velocity - (t.smul f).smul a.inverseMass }
        let b2 := { b1 with velocity := b1.velocity + (t.smul f).smul b.inverseMass }
        { contact := { c1 with tangentImpulse := f }, bodyA := a2, bodyB := b2 }
      else
        { contact := c1, bodyA := a1, bodyB := b1 }

/-- The impulse magnitude |j| that Contact.resolve returns, recomputed from
the states before and after (the stored normal impulse after a non-early
resolve is exactly the applied j). -/
def ContactSolver.impulseChange (before after : ContactState) : ℚ :=
  |after.contact.normalImpulse - before.contact.normalImpulse|

/-- ContactSolver.solve_velocity_constraints from
src/contacts/contact_solver.py, specialized to a solver holding one
contact: up to velocity_iterations passes, each calling Contact.resolve,
breaking once the absolute change of the accumulated normal impulse over a
pass is below 0.001. -/
def ContactSolver.solveVelocityConstraintsOne : ℕ → ℚ → ContactState → ContactState
  | 0, _, s => s
  | n + 1, dt, s =>
    let s1 := Contact.resolve s dt
    if ContactSolver.impulseChange s s1 < 1 / 1000 then s1
    else ContactSolver.solveVelocityConstraintsOne n dt s1

/-- Mat22 from src/math/mat22.py: cols[0][0], cols[0][1], cols[1][0],
cols[1][1]. -/
structure Mat22 where
  c00 : ℚ
  c01 : ℚ
  c10 : ℚ
  c11 : ℚ
deriving DecidableEq, Repr

/-- A dynamically typed numeric slot: Python code below produces either a
float or a Vec2 in positions where Mat22.__init__ expects a number. -/
inductive PyNum where
  | f (q : ℚ)
  | v (w : Vec2)
deriving DecidableEq, Repr

/-- Python float(x): succeeds on a float, raises TypeError on a Vec2
(Vec2 defines no __float__). -/
def pyFloat : PyNum → Except PyErr ℚ
  | .f q => .ok q
  | .v _ => .error .typeError

/-- Mat22.__init__ with an explicit cols argument: float() is applied to
each of the four entries. -/
def mat22New (e00 e01 e10 e11 : PyNum) : Except PyErr Mat22 := do
  let a ← pyFloat e00
  let b ← pyFloat e01
  let c ← pyFloat e10
  let d ← pyFloat e11
  .ok ⟨a, b, c, d⟩

/-- Mat22.from_angle, parametrized by the embedding of math.cos and
math.sin (their values are irrelevant to every theorem below). -/
def mat22FromAngle (cosF sinF : ℚ → ℚ) (angle : ℚ) : Mat22 :=
  ⟨cosF angle, -(sinF angle), sinF angle, cosF angle⟩

/-- Mat22.transpose. -/
def mat22Transpose (m : Mat22) : Mat22 :=
  ⟨m.c00, m.c10, m.c01, m.c11⟩

/-- Mat22.__mul__ applied to a Vec2: a Vec2 is not a Mat22, so the scalar
branch runs; each entry self.cols[i][j] * other is float * Vec2, which
dispatches to Vec2.__rmul__ and yields a Vec2; the Mat22 constructor then
calls float() on those Vec2 entries and raises TypeError. -/
def mat22MulVec (m : Mat22) (p : Vec2) : Except PyErr Mat22 :=
  mat22New (.v (p.smul m.c00)) (.v (p.smul m.c01)) (.v (p.smul m.c10))
    (.v (p.smul m.c11))

/-- A dynamically typed result: the value Transform.transform_point would
return if it returned (a Vec2 or, through the broken multiply, a Mat22). -/
inductive PyVal where
  | vec (v : Vec2)
  | mat (m : Mat22)
deriving DecidableEq, Repr

/-- Mat22.__add__ applied to a Vec2: the method reads other.cols[0][0]
unconditionally, and a Vec2 has no cols attribute, so AttributeError is
raised. -/
def mat22AddVec (_m : Mat22) (_v : Vec2) : Except PyErr PyVal :=
  .error .attributeError

/-- Transform from src/math/transform.py. -/
structure Transform where
  position : Vec2
  rotation : ℚ
deriving DecidableEq, Repr

/-- Transform.transform_point: rotation_matrix * point followed by
+ position.  The multiplication always raises TypeError (see
mat22MulVec), so the method never returns. -/
def transformPoint (cosF sinF : ℚ → ℚ) (t : Transform) (p : Vec2) :
    Except PyErr PyVal := do
  let rotated ← mat22MulVec (mat22FromAngle cosF sinF t.rotation) p
  mat22AddVec rotated t.position

/-- Transform.inverse_transform_point on a dynamically typed argument: on
a Vec2 it subtracts the position and multiplies by the transposed rotation
matrix (which again raises TypeError in mat22MulVec); on a Mat22 the
subtraction point - self.position reads other.cols off the Vec2 operand of
Mat22.__sub__ and raises AttributeError. -/
def inverseTransformPoint (cosF sinF : ℚ → ℚ) (t : Transform) :
    PyVal → Except PyErr PyVal
  | .vec q =>
    (mat22MulVec (mat22Transpose (mat22FromAngle cosF sinF t.rotation))
        (q - t.position)).map PyVal.mat
  | .mat _ => .error .attributeError

/-- The round trip T.inverse_transform_point(T.transform_point(p)) of the
spec's round-trip law. -/
def transformRoundTrip (cosF sinF : ℚ → ℚ) (t : Transform) (p : Vec2) :
    Except PyErr PyVal :=
  (transformPoint cosF sinF t p).bind (inverseTransformPoint cosF sinF t)

/-- Joint, the base class of src/constraints/joint.py, whose pre_solve,
solve_velocity_constraints and solve_position_constraints hooks are all
no-ops.  Bodies are referenced by stable indices into the world body
list.  The subclassed joints of src/constraints are outside the claims. -/
structure Joint where
  body1 : ℕ
  body2 : ℕ
  anchor1 : Vec2
  anchor2 : Vec2
deriving DecidableEq, Repr

/-- World from src/dynamics/world.py.  The broadphase AABB list is the
snapshot stored by add_body calls (Broadphase.update only re-sorts it; it
is never refreshed from the current body poses).  active_contacts is the
persistent contact map, keyed by the order-independent body pair.  The
transient contact_solver contact list (cleared on entry of every solve)
is not part of the state. -/
structure World where
  gravity : Vec2
  bodies : List Body
  joints : List Joint
  broadphaseAabbs : List AABB
  timeStep : ℚ
  velocityIterations : ℕ
  positionIterations : ℕ
  stepCount : ℕ
  activeContacts : List ((ℕ × ℕ) × Contact)
deriving DecidableEq, Repr

namespace World

/-- World.__init__. -/
def init (gravity : Vec2) : World :=
  { gravity := gravity, bodies := [], joints := [], broadphaseAabbs := []
    timeStep := 1 / 60, velocityIterations := 40, positionIterations := 15
    stepCount := 0, activeContacts := [] }

/-- World.add_body: append the body and the AABB snapshot produced by
body.get_aabb().  On a body whose get_aabb raises (polygon shapes), the
Python list mutation before the raise is dropped with the error. -/
def addBody (w : World) (b : Body) : Except PyErr World := do
  let aabb ← b.getAabb w.bodies.length
  .ok { w with bodies := w.bodies ++ [b], broadphaseAabbs := w.broadphaseAabbs ++ [aabb] }

/-- World.remove_body: if the body is owned, remove it from the body list;
the subsequent broadphase.remove_aabb(body.get_aabb()) compares a freshly
constructed AABB object against the stored ones by identity (AABB defines
no __eq__), so the stored snapshot is never removed.  If the body is not
owned, only a warning is logged and the world is returned unchanged — no
exception is raised. -/
def removeBody (w : World) (b : Body) : Except PyErr World :=
  if b ∈ w.bodies then
    match b.getAabb 0 with
    | .error e => .error e
    | .ok _ => .ok { w with bodies := w.bodies.erase b }
  else .ok w

/-- World.remove_joint: remove an owned joint; for a joint not owned by the
world only a warning is logged and the world is returned unchanged — no
exception is raised. -/
def removeJoint (w : World) (j : Joint) : Except PyErr World :=
  if j ∈ w.joints then .ok { w with joints := w.joints.erase j }
  else .ok w

/-- The force-application loop of World.step (lines 194-200): the guard
"not body.is_static and not body.is_sleeping" short-circuits for static
bodies and raises AttributeError on the first non-static body, because
Body never defines is_sleeping; no force is ever applied. -/
def applyForcesPhase : List Body → Except PyErr (List Body)
  | [] => .ok []
  | b :: rest =>
    if b.isStatic then
      match applyForcesPhase rest with
      | .error e => .error e
      | .ok r => .ok (b :: r)
    else .error .attributeError

/-- The velocity-integration loop of World.step (lines 202-205): the same
guard, so static bodies are skipped unchanged and the first non-static
body raises AttributeError before integrate_velocity is called. -/
def integrateVelocitiesPhase : List Body → Except PyErr (List Body)
  | [] => .ok []
  | b :: rest =>
    if b.isStatic then
      match integrateVelocitiesPhase rest with
      | .error e => .error e
      | .ok r => .ok (b :: r)
    else .error .attributeError

/-- World._solve_contacts with an empty collision-pair list, the only list
reachable in a step that got past the narrowphase lookup: it clears the
solver contact list, deletes every persistent contact (the current key
list is empty), and solves an empty contact set, touching no body. -/
def solveContactsEmpty (_active : List ((ℕ × ℕ) × Contact)) :
    List ((ℕ × ℕ) × Contact) := []

/-- The velocity-iterations loop of World.step (lines 211-222) in a step
whose collision-pair list is empty: each pass runs _solve_contacts on the
empty pair list and the no-op hooks of the base Joint class. -/
def velocityIterationsPhase : ℕ → List ((ℕ × ℕ) × Contact) →
    List ((ℕ × ℕ) × Contact)
  | 0, active => active
  | n + 1, active => velocityIterationsPhase n (solveContactsEmpty active)

/-- The per-body damping applied by Island.solve once per velocity
iteration (default 40) to non-static bodies. -/
def islandDamping : ℕ → Body → Body
  | 0, b => b
  | n + 1, b =>
    islandDamping n
      { b with velocity := b.velocity.smul (99 / 100)
               angularVelocity := b.angularVelocity * (98 / 100) }

/-- World._build_islands followed by solving each island, for a step whose
collision-pair list is empty: the islands partition the bodies (the
visited set guarantees each body lands in exactly one island), island
contacts are empty, the base Joint hooks are no-ops, and Island.solve
applies its damping loop to each non-static body of the island. -/
def islandsPhase (bodies : List Body) : List Body :=
  bodies.map fun b => if b.isStatic then b else islandDamping 40 b

/-- The position-integration loop of World.step (lines 232-234): again the
guard reads is_sleeping, so static bodies pass unchanged and the first
non-static body raises AttributeError. -/
def integratePositionsPhase : List Body → Except PyErr (List Body)
  | [] => .ok []
  | b :: rest =>
    if b.isStatic then
      match integratePositionsPhase rest with
      | .error e => .error e
      | .ok r => .ok (b :: r)
    else .error .attributeError

/-- World.step from src/dynamics/world.py.  Order of the source: broadphase
update, narrowphase loop, force application, velocity integration,
velocity iterations (contacts then base-joint no-ops), islands, position
integration, joint position loop (no-ops).  The narrowphase loop looks up
"next(body for body in self.bodies if id(body) == body1_id)" where the
pair holds the ids of the two AABB objects; distinct live CPython objects
never share id(), so the generator is exhausted and next() raises
StopIteration on the first emitted pair.  State mutated before a raise
(step_count, time_step, broadphase pair set) is dropped with the error. -/
def step (w : World) (timeStepArg : Option ℚ) : Except PyErr World :=
  let ts := timeStepArg.getD w.timeStep
  match broadphasePairs w.broadphaseAabbs with
  | _ :: _ => .error .stopIteration
  | [] =>
    match applyForcesPhase w.bodies with
    | .error e => .error e
    | .ok b1 =>
      match integrateVelocitiesPhase b1 with
      | .error e => .error e
      | .ok b2 =>
        let active := velocityIterationsPhase w.velocityIterations w.activeContacts
        let b3 := islandsPhase b2
        match integratePositionsPhase b3 with
        | .error e => .error e
        | .ok b4 =>
          .ok { w with timeStep := ts, stepCount := w.stepCount + 1, bodies := b4
                       activeContacts := active }

end World

/-- Modelled from the spec: the Baumgarte bias formula the spec states,
b = -(beta / dt) * max(0, penetration - slop), instantiated with the
source constants BAUMGARTE and POSITION_SLOP, for comparison with the
bias the source actually computes (resolveBias). -/
def specBaumgarteBias (penetration dt : ℚ) : ℚ :=
  -BAUMGARTE / dt * max 0 (penetration - POSITION_SLOP)

/-- The free-fall body of spec scenario 1: dynamic circle, radius 1,
mass 1, at (0, 10), zero velocity — the record Body.__init__ builds. -/
def ffBody : Body :=
  { shape := .circle ⟨0, 0⟩ 1, mass := 1, position := ⟨0, 10⟩
    velocity := ⟨0, 0⟩, angularVelocity := 0, orientation := 0
    isStatic := false, inverseMass := 1, inertia := some (1 / 2)
    inverseInertia := 2, force := Vec2.zero, torque := 0
    transformPosition := ⟨0, 10⟩, transformRotation := 0, restitution := none }

/-- The free-fall world of spec scenario 1: gravity (0, -9.81) and the
single dynamic circle body. -/
def ffWorld : World :=
  { gravity := ⟨0, -981 / 100⟩, bodies := [ffBody], joints := []
    broadphaseAabbs := [⟨⟨-1, 9⟩, ⟨1, 11⟩, 0⟩], timeStep := 1 / 60
    velocityIterations := 40, positionIterations := 15, stepCount := 0
    activeContacts := [] }

/-- A dynamic unit circle body at the origin. -/
def c2BodyDyn : Body :=
  { shape := .circle ⟨0, 0⟩ 1, mass := 1, position := ⟨0, 0⟩
    velocity := ⟨0, 0⟩, angularVelocity := 0, orientation := 0
    isStatic := false, inverseMass := 1, inertia := some (1 / 2)
    inverseInertia := 2, force := Vec2.zero, torque := 0
    transformPosition := ⟨0, 0⟩, transformRotation := 0, restitution := none }

/-- A static unit circle body at the origin. -/
def c2BodyStat : Body :=
  { shape := .circle ⟨0, 0⟩ 1, mass := 1, position := ⟨0, 0⟩
    velocity := ⟨0, 0⟩, angularVelocity := 0, orientation := 0
    isStatic := true, inverseMass := 0, inertia := none
    inverseInertia := 0, force := Vec2.zero, torque := 0
    transformPosition := ⟨0, 0⟩, transformRotation := 0, restitution := none }

/-- A world with a dynamic and a static body whose broadphase AABBs
overlap, so Broadphase.update emits one candidate pair. -/
def c2World : World :=
  { gravity := ⟨0, -981 / 100⟩, bodies := [c2BodyDyn, c2BodyStat], joints := []
    broadphaseAabbs := [⟨⟨-1, -1⟩, ⟨1, 1⟩, 0⟩, ⟨⟨-1, -1⟩, ⟨1, 1⟩, 1⟩]
    timeStep := 1 / 60, velocityIterations := 40, positionIterations := 15
    stepCount := 0, activeContacts := [] }

/-- A static body carrying a non-zero force and torque accumulator, as
left by Body.apply_force((1,1), point=(1,0)). -/
def c9Body : Body :=
  { shape := .circle ⟨0, 0⟩ 1, mass := 1, position := ⟨0, 0⟩
    velocity := ⟨0, 0⟩, angularVelocity := 0, orientation := 0
    isStatic := true, inverseMass := 0, inertia := none
    inverseInertia := 0, force := ⟨1, 1⟩, torque := 1
    transformPosition := ⟨0, 0⟩, transformRotation := 0, restitution := none }

/-- A world holding only the static body with loaded accumulators; its
step completes (no broadphase pair, no dynamic body). -/
def c9World : World :=
  { gravity := ⟨0, -981 / 100⟩, bodies := [c9Body], joints := []
    broadphaseAabbs := [⟨⟨-1, -1⟩, ⟨1, 1⟩, 0⟩], timeStep := 1 / 60
    velocityIterations := 40, positionIterations := 15, stepCount := 0
    activeContacts := [] }

/-- The world state after a completed step on c9World: only the step
counter advanced; bodies (and their accumulators) are untouched. -/
def c9WorldAfter : World :=
  { c9World with stepCount := 1 }

/-- The static ground body of the contact-solver scenarios. -/
def groundBody : Body :=
  { shape := .circle ⟨0, 0⟩ 1, mass := 1, position := ⟨0, 0⟩
    velocity := ⟨0, 0⟩, angularVelocity := 0, orientation := 0
    isStatic := true, inverseMass := 0, inertia := none
    inverseInertia := 0, force := Vec2.zero, torque := 0
    transformPosition := ⟨0, 0⟩, transformRotation := 0, restitution := none }

/-- A dynamic body approaching the ground straight down at speed 1. -/
def c3BodyB : Body :=
  { shape := .circle ⟨0, 0⟩ 1, mass := 1, position := ⟨0, 1⟩
    velocity := ⟨0, -1⟩, angularVelocity := 0, orientation := 0
    isStatic := false, inverseMass := 1, inertia := some (1 / 2)
    inverseInertia := 2, force := Vec2.zero, torque := 0
    transformPosition := ⟨0, 1⟩, transformRotation := 0, restitution := none }

/-- A fresh contact between the ground and the approaching body, with
normal (0, 1) and zero penetration. -/
def c3State : ContactState :=
  { contact := Contact.mk0 ⟨0, 1⟩ 0 ⟨0, 0⟩, bodyA := groundBody, bodyB := c3BodyB }

/-- A dynamic body with both a normal and a tangential velocity
component. -/
def c4BodyB : Body :=
  { shape := .circle ⟨0, 0⟩ 1, mass := 1, position := ⟨0, 1⟩
    velocity := ⟨1, -1⟩, angularVelocity := 0, orientation := 0
    isStatic := false, inverseMass := 1, inertia := some (1 / 2)
    inverseInertia := 2, force := Vec2.zero, torque := 0
    transformPosition := ⟨0, 1⟩, transformRotation := 0, restitution := none }

/-- A fresh contact between the ground and the sliding body. -/
def c4State : ContactState :=
  { contact := Contact.mk0 ⟨0, 1⟩ 0 ⟨0, 0⟩, bodyA := groundBody, bodyB := c4BodyB }

/-- The contact state used to instantiate the resolve formula (same data
as c3State, named separately for the C5 witness). -/
def c5State : ContactState :=
  { contact := Contact.mk0 ⟨0, 1⟩ 0 ⟨0, 0⟩, bodyA := groundBody, bodyB := c3BodyB }

/-- The vertex ring of the square (0,0)-(2,2), spec scenario 4. -/
def squareA : List Vec2 := [⟨0, 0⟩, ⟨2, 0⟩, ⟨2, 2⟩, ⟨0, 2⟩]

/-- The vertex ring of the square (1,1)-(3,3), spec scenario 4. -/
def squareB : List Vec2 := [⟨1, 1⟩, ⟨3, 1⟩, ⟨3, 3⟩, ⟨1, 3⟩]

/-- Witness AABB (0,0)-(2,2) for the broadphase theorem. -/
def w8A : AABB := ⟨⟨0, 0⟩, ⟨2, 2⟩, 0⟩

/-- Witness AABB (1,1)-(3,3) for the broadphase theorem. -/
def w8B : AABB := ⟨⟨1, 1⟩, ⟨3, 3⟩, 1⟩

/-- An owned body of the removal scenario. -/
def c10Body : Body :=
  { shape := .circle ⟨0, 0⟩ 1, mass := 1, position := ⟨5, 5⟩
    velocity := ⟨0, 0⟩, angularVelocity := 0, orientation := 0
    isStatic := true, inverseMass := 0, inertia := none
    inverseInertia := 0, force := Vec2.zero, torque := 0
    transformPosition := ⟨5, 5⟩, transformRotation := 0, restitution := none }

/-- An owned joint of the removal scenario. -/
def c10Joint : Joint := ⟨0, 0, ⟨0, 0⟩, ⟨0, 0⟩⟩

/-- The world owning one body and one joint. -/
def c10World : World :=
  { gravity := ⟨0, -981 / 100⟩, bodies := [c10Body], joints := [c10Joint]
    broadphaseAabbs := [⟨⟨4, 4⟩, ⟨6, 6⟩, 0⟩], timeStep := 1 / 60
    velocityIterations := 40, positionIterations := 15, stepCount := 0
    activeContacts := [] }

/-- A body never added to c10World (a distinct Python object). -/
def c10ForeignBody : Body :=
  { c10Body with position := ⟨7, 7⟩, transformPosition := ⟨7, 7⟩ }

/-- A joint never added to c10World (a distinct Python object). -/
def c10ForeignJoint : Joint := ⟨0, 0, ⟨1, 1⟩, ⟨1, 1⟩⟩

lemma aabbOverlap_symm (a b : AABB) : aabbOverlap a b = aabbOverlap b a := by
  simp only [aabbOverlap, decide_eq_decide]
  constructor <;> rintro ⟨h1, h2, h3, h4⟩ <;> exact ⟨h2, h1, h4, h3⟩

lemma pairKey_symm (i j : ℕ) : pairKey i j = pairKey j i := by
  simp [pairKey, min_comm, max_comm]

lemma pairKey_eq_of_lt {i j : ℕ} (h : i < j) : pairKey i j = (i, j) := by
  simp [pairKey, min_eq_left h.le, max_eq_right h.le]

lemma pairKey_cases {x y i j : ℕ} (_hij : i < j) (h : pairKey x y = (i, j)) :
    (x = i ∧ y = j) ∨ (x = j ∧ y = i) := by
  simp only [pairKey, Prod.mk.injEq] at h
  rcases le_total x y with hxy | hxy
  · left
    rw [min_eq_left hxy, max_eq_right hxy] at h
    exact ⟨h.1, h.2⟩
  · right
    rw [min_eq_right hxy, max_eq_left hxy] at h
    exact ⟨h.2, h.1⟩

lemma mem_tagFrom_iff {k : ℕ} {l : List AABB} {i : ℕ} {a : AABB} :
    (i, a) ∈ tagFrom k l ↔ ∃ d, i = k + d ∧ l[d]? = some a := by
  induction l generalizing k with
  | nil => simp [tagFrom]
  | cons b t ih =>
    simp only [tagFrom, List.mem_cons, Prod.mk.injEq, ih]
    constructor
    · rintro (⟨hi, ha⟩ | ⟨d, hd, hget⟩)
      · exact ⟨0, by omega, by simp [ha]⟩
      · exact ⟨d + 1, by omega, by simpa using hget⟩
    · rintro ⟨d, hd, hget⟩
      cases d with
      | zero =>
        left
        simp only [List.getElem?_cons_zero, Option.some.injEq] at hget
        exact ⟨by omega, hget.symm⟩
      | succ e =>
        right
        exact ⟨e, by omega, by simpa using hget⟩

lemma mem_tagFrom_zero_iff {l : List AABB} {i : ℕ} {a : AABB} :
    (i, a) ∈ tagFrom 0 l ↔ l[i]? = some a := by
  rw [mem_tagFrom_iff]
  constructor
  · rintro ⟨d, hd, hget⟩
    have : i = d := by omega
    rw [this]
    exact hget
  · intro h
    exact ⟨i, by omega, h⟩

lemma sweepScan_sound {a : ℕ × AABB} {l : List (ℕ × AABB)} {p : ℕ × ℕ}
    (hp : p ∈ sweepScan a l) :
    ∃ b ∈ l, p = pairKey a.1 b.1 ∧ aabbOverlap a.2 b.2 = true := by
  induction l with
  | nil => simp [sweepScan] at hp
  | cons c rest ih =>
    simp only [sweepScan] at hp
    split at hp
    · simp at hp
    · rcases List.mem_append.mp hp with hl | hr
      · split at hl
        · simp only [List.mem_singleton] at hl
          exact ⟨c, List.mem_cons_self c rest, hl, by assumption⟩
        · simp at hl
      · obtain ⟨b, hb, hkey, hov⟩ := ih hr
        exact ⟨b, List.mem_cons_of_mem c hb, hkey, hov⟩

lemma sweep_sound {L : List (ℕ × AABB)} {p : ℕ × ℕ} (hp : p ∈ sweep L) :
    ∃ a ∈ L, ∃ b ∈ L, p = pairKey a.1 b.1 ∧ aabbOverlap a.2 b.2 = true := by
  induction L with
  | nil => simp [sweep] at hp
  | cons a rest ih =>
    simp only [sweep] at hp
    rcases List.mem_append.mp hp with hl | hr
    · obtain ⟨b, hb, hkey, hov⟩ := sweepScan_sound hl
      exact ⟨a, List.mem_cons_self a rest, b, List.mem_cons_of_mem a hb, hkey, hov⟩
    · obtain ⟨x, hx, y, hy, hkey, hov⟩ := ih hr
      exact ⟨x, List.mem_cons_of_mem a hx, y, List.mem_cons_of_mem a hy, hkey, hov⟩

lemma sweepScan_complete {a : ℕ × AABB} {l : List (ℕ × AABB)}
    (hsort : l.Pairwise aabbKeyLe) {b : ℕ × AABB} (hb : b ∈ l)
    (hov : aabbOverlap a.2 b.2 = true) : pairKey a.1 b.1 ∈ sweepScan a l := by
  induction l with
  | nil => simp at hb
  | cons c rest ih =>
    have hcrest := List.pairwise_cons.mp hsort
    simp only [sweepScan]
    split
    · exfalso
      rename_i hbreak
      have hble : b.2.lowerBound.x ≤ a.2.upperBound.x := by
        simp only [aabbOverlap, decide_eq_true_eq] at hov
        exact hov.2.1
      rcases List.mem_cons.mp hb with hbc | hbrest
      · subst hbc
        exact absurd hbreak (not_lt.mpr hble)
      · have hcb : aabbKeyLe c b := hcrest.1 b hbrest
        have : c.2.lowerBound.x ≤ a.2.upperBound.x := le_trans hcb hble
        exact absurd hbreak (not_lt.mpr this)
    · rcases List.mem_cons.mp hb with hbc | hbrest
      · subst hbc
        apply List.mem_append.mpr
        left
        simp [hov]
      · exact List.mem_append.mpr (Or.inr (ih hcrest.2 hbrest))

lemma sweep_complete :
    ∀ (l1 : List (ℕ × AABB)) {L : List (ℕ × AABB)} {a : ℕ × AABB}
      {l2 : List (ℕ × AABB)},
      L.Pairwise aabbKeyLe → L = l1 ++ a :: l2 → ∀ b ∈ l2,
      aabbOverlap a.2 b.2 = true → pairKey a.1 b.1 ∈ sweep L := by
  intro l1
  induction l1 with
  | nil =>
    intro L a l2 hsort hL b hb hov
    subst hL
    simp only [List.nil_append, sweep]
    exact List.mem_append.mpr
      (Or.inl (sweepScan_complete (List.pairwise_cons.mp hsort).2 hb hov))
  | cons c l1' ih =>
    intro L a l2 hsort hL b hb hov
    subst hL
    simp only [List.cons_append, sweep]
    exact List.mem_append.mpr
      (Or.inr (ih (List.pairwise_cons.mp hsort).2 rfl b hb hov))

lemma mem_split_pair {α : Type} [DecidableEq α] {L : List α} {a b : α}
    (ha : a ∈ L) (hb : b ∈ L) (hab : a ≠ b) :
    (∃ l1 l2, L = l1 ++ a :: l2 ∧ b ∈ l2) ∨
      (∃ l1 l2, L = l1 ++ b :: l2 ∧ a ∈ l2) := by
  induction L with
  | nil => simp at ha
  | cons x xs ih =>
    by_cases hax : a = x
    · subst hax
      left
      refine ⟨[], xs, rfl, ?_⟩
      rcases List.mem_cons.mp hb with hbx | hbxs
      · exact absurd hbx.symm hab
      · exact hbxs
    · by_cases hbx : b = x
      · subst hbx
        right
        refine ⟨[], xs, rfl, ?_⟩
        rcases List.mem_cons.mp ha with hax2 | haxs
        · exact absurd hax2 hax
        · exact haxs
      · have ha2 : a ∈ xs := by
          rcases List.mem_cons.mp ha with h | h
          · exact absurd h hax
          · exact h
        have hb2 : b ∈ xs := by
          rcases List.mem_cons.mp hb with h | h
          · exact absurd h hbx
          · exact h
        rcases ih ha2 hb2 with ⟨l1, l2, hL, hmem⟩ | ⟨l1, l2, hL, hmem⟩
        · exact Or.inl ⟨x :: l1, l2, by rw [hL]; rfl, hmem⟩
        · exact Or.inr ⟨x :: l1, l2, by rw [hL]; rfl, hmem⟩

/-- C8: after Broadphase.update, the emitted pair set contains the pair of
two input AABBs if and only if they overlap on both the x and y axes; in
particular every non-overlapping pair is absent, despite the early break
in the scan over AABBs sorted by lower_bound.x. -/
theorem broadphasePairs_mem_iff {aabbs : List AABB} {i j : ℕ} {A B : AABB}
    (hij : i < j) (hA : aabbs[i]? = some A) (hB : aabbs[j]? = some B) :
    (i, j) ∈ broadphasePairs aabbs ↔ aabbOverlap A B = true := by
  have hmemS : ∀ x : ℕ × AABB,
      x ∈ List.insertionSort aabbKeyLe (tagFrom 0 aabbs) ↔ x ∈ tagFrom 0 aabbs :=
    fun x => List.mem_insertionSort aabbKeyLe
  have hsort : (List.insertionSort aabbKeyLe (tagFrom 0 aabbs)).Pairwise aabbKeyLe :=
    List.sorted_insertionSort aabbKeyLe (tagFrom 0 aabbs)
  constructor
  · intro hmem
    obtain ⟨a, haS, b, hbS, hkey, hov⟩ := sweep_sound hmem
    have haT : aabbs[a.1]? = some a.2 := by
      have := (hmemS a).mp haS
      rcases a with ⟨a1, a2⟩
      exact mem_tagFrom_zero_iff.mp this
    have hbT : aabbs[b.1]? = some b.2 := by
      have := (hmemS b).mp hbS
      rcases b with ⟨b1, b2⟩
      exact mem_tagFrom_zero_iff.mp this
    rcases pairKey_cases hij hkey.symm with ⟨hai, hbj⟩ | ⟨haj, hbi⟩
    · rw [hai] at haT
      rw [hbj] at hbT
      rw [hA] at haT
      rw [hB] at hbT
      rw [Option.some_inj.mp haT, Option.some_inj.mp hbT]
      exact hov
    · rw [haj] at haT
      rw [hbi] at hbT
      rw [hB] at haT
      rw [hA] at hbT
      rw [Option.some_inj.mp hbT, Option.some_inj.mp haT]
      rw [aabbOverlap_symm]
      exact hov
  · intro hov
    have haS : ((i, A) : ℕ × AABB) ∈ List.insertionSort aabbKeyLe (tagFrom 0 aabbs) :=
      (hmemS (i, A)).mpr (mem_tagFrom_zero_iff.mpr hA)
    have hbS : ((j, B) : ℕ × AABB) ∈ List.insertionSort aabbKeyLe (tagFrom 0 aabbs) :=
      (hmemS (j, B)).mpr (mem_tagFrom_zero_iff.mpr hB)
    have hne : ((i, A) : ℕ × AABB) ≠ (j, B) := by
      intro h
      exact absurd (congrArg Prod.fst h) (by simp; omega)
    rcases mem_split_pair haS hbS hne with ⟨l1, l2, hL, hmem⟩ | ⟨l1, l2, hL, hmem⟩
    · have := sweep_complete l1 hsort hL (j, B) hmem hov
      simpa [broadphasePairs, pairKey_eq_of_lt hij] using this
    · have hov2 : aabbOverlap B A = true := by rw [aabbOverlap_symm]; exact hov
      have := sweep_complete l1 hsort hL (i, A) hmem hov2
      have hkey : pairKey j i = (i, j) := by rw [pairKey_symm]; exact pairKey_eq_of_lt hij
      simpa [broadphasePairs, hkey] using this

lemma applyForcesPhase_allStatic {l : List Body} (h : ∀ b ∈ l, b.isStatic = true) :
    World.applyForcesPhase l = .ok l := by
  induction l with
  | nil => rfl
  | cons b rest ih =>
    have hb : b.isStatic = true := h b (List.mem_cons_self b rest)
    have hrest := ih fun x hx => h x (List.mem_cons_of_mem b hx)
    simp [World.applyForcesPhase, hb, hrest]

lemma applyForcesPhase_ok_inv {l l2 : List Body}
    (h : World.applyForcesPhase l = .ok l2) :
    (∀ b ∈ l, b.isStatic = true) ∧ l2 = l := by
  induction l generalizing l2 with
  | nil =>
    simp only [World.applyForcesPhase, Except.ok.injEq] at h
    exact ⟨by simp, h.symm⟩
  | cons b rest ih =>
    simp only [World.applyForcesPhase] at h
    by_cases hb : b.isStatic
    · rw [if_pos hb] at h
      cases hr : World.applyForcesPhase rest with
      | error e => rw [hr] at h; cases h
      | ok r =>
        rw [hr] at h
        simp only [Except.ok.injEq] at h
        obtain ⟨hall, hre⟩ := ih hr
        subst hre
        refine ⟨?_, h.symm⟩
        intro x hx
        rcases List.mem_cons.mp hx with rfl | hxr
        · exact hb
        · exact hall x hxr
    · rw [if_neg hb] at h
      cases h

lemma applyForcesPhase_err {l : List Body} (h : ∃ b ∈ l, b.isStatic = false) :
    World.applyForcesPhase l = .error .attributeError := by
  induction l with
  | nil => simp at h
  | cons b rest ih =>
    by_cases hb : b.isStatic
    · have hrest : ∃ x ∈ rest, x.isStatic = false := by
        obtain ⟨x, hx, hxs⟩ := h
        rcases List.mem_cons.mp hx with rfl | hxr
        · rw [hb] at hxs; cases hxs
        · exact ⟨x, hxr, hxs⟩
      simp [World.applyForcesPhase, hb, ih hrest]
    · simp [World.applyForcesPhase, hb]

lemma integrateVelocitiesPhase_eq (l : List Body) :
    World.integrateVelocitiesPhase l = World.applyForcesPhase l := by
  induction l with
  | nil => rfl
  | cons b rest ih =>
    simp only [World.integrateVelocitiesPhase, World.applyForcesPhase, ih]

lemma integratePositionsPhase_eq (l : List Body) :
    World.integratePositionsPhase l = World.applyForcesPhase l := by
  induction l with
  | nil => rfl
  | cons b rest ih =>
    simp only [World.integratePositionsPhase, World.applyForcesPhase, ih]

lemma islandsPhase_allStatic {l : List Body} (h : ∀ b ∈ l, b.isStatic = true) :
    World.islandsPhase l = l := by
  induction l with
  | nil => rfl
  | cons b rest ih =>
    have hb : b.isStatic = true := h b (List.mem_cons_self b rest)
    have hrest := ih fun x hx => h x (List.mem_cons_of_mem b hx)
    simp [World.islandsPhase, hb] at hrest ⊢
    exact hrest

/-- C2 (corrected): World.step raises StopIteration, not AttributeError,
whenever the broadphase emits at least one candidate pair, because the
pair holds AABB object ids that never match any body id; when no pair is
emitted, step raises AttributeError exactly when some body is non-static
(Body never defines is_sleeping), and returns normally exactly when no
pair is emitted and every body is static. -/
theorem step_outcome_characterization (w : World) (dt : Option ℚ) :
    (broadphasePairs w.broadphaseAabbs ≠ [] →
      World.step w dt = .error .stopIteration) ∧
    (broadphasePairs w.broadphaseAabbs = [] →
      (∃ b ∈ w.bodies, b.isStatic = false) →
      World.step w dt = .error .attributeError) ∧
    ((∃ w2, World.step w dt = .ok w2) ↔
      (broadphasePairs w.broadphaseAabbs = [] ∧
        ∀ b ∈ w.bodies, b.isStatic = true)) := by
  refine ⟨?_, ?_, ?_, ?_⟩
  · intro hne
    cases hp : broadphasePairs w.broadphaseAabbs with
    | nil => exact absurd hp hne
    | cons a l => simp [World.step, hp]
  · intro hp hex
    simp [World.step, hp, applyForcesPhase_err hex]
  · rintro ⟨w2, hw2⟩
    cases hp : broadphasePairs w.broadphaseAabbs with
    | cons a l => simp [World.step, hp] at hw2
    | nil =>
      refine ⟨rfl, ?_⟩
      by_contra hns
      push_neg at hns
      obtain ⟨b, hb, hbs⟩ := hns
      have herr := applyForcesPhase_err ⟨b, hb, Bool.not_eq_true _ ▸ hbs⟩
      simp [World.step, hp, herr] at hw2
  · rintro ⟨hp, hall⟩
    have h1 := applyForcesPhase_allStatic hall
    have h2 : World.integrateVelocitiesPhase w.bodies = .ok w.bodies := by
      rw [integrateVelocitiesPhase_eq]; exact h1
    have h3 := islandsPhase_allStatic hall
    have h4 : World.integratePositionsPhase w.bodies = .ok w.bodies := by
      rw [integratePositionsPhase_eq]; exact h1
    refine ⟨{ w with
                timeStep := dt.getD w.timeStep
                stepCount := w.stepCount + 1
                bodies := w.bodies
                activeContacts :=
                  World.velocityIterationsPhase w.velocityIterations w.activeContacts },
      ?_⟩
    simp [World.step, hp, h1, h2, h4, h3]

/-- C2 witness: the characterization applied to concrete worlds — a world
with an emitted broadphase pair steps to StopIteration, the free-fall
world (no pair, one dynamic body) steps to AttributeError, and the
all-static pair-free world steps normally. -/
theorem step_outcome_characterization_witness :
    World.step c2World none = .error .stopIteration ∧
    World.step ffWorld (some (1 / 60)) = .error .attributeError ∧
    (∃ w2, World.step c9World none = .ok w2) :=
  ⟨(step_outcome_characterization c2World none).1 (by with_unfolding_all decide),
   (step_outcome_characterization ffWorld (some (1 / 60))).2.1 (by with_unfolding_all decide) (by with_unfolding_all decide),
   (step_outcome_characterization c9World none).2.2.mpr ⟨by with_unfolding_all decide, by with_unfolding_all decide⟩⟩

/-- C2 counterexample: a world containing a non-static body on which
World.step raises StopIteration (the broadphase emitted a pair), not
AttributeError as the claim states. -/
theorem step_stopIteration_counterexample :
    World.step c2World none = .error .stopIteration ∧
    World.step c2World none ≠ .error .attributeError ∧
    (∃ b ∈ c2World.bodies, b.isStatic = false) := by
  with_unfolding_all decide

/-- C9 (corrected): World.step never clears the force or torque
accumulators; every call that returns normally returns each body, and in
particular its force and torque accumulators, unchanged. -/
theorem step_ok_bodies_unchanged (w : World) (dt : Option ℚ) (w2 : World)
    (h : World.step w dt = .ok w2) :
    w2.bodies = w.bodies ∧
    w2.bodies.map Body.force = w.bodies.map Body.force ∧
    w2.bodies.map Body.torque = w.bodies.map Body.torque := by
  cases hp : broadphasePairs w.broadphaseAabbs with
  | cons a l => simp [World.step, hp] at h
  | nil =>
    simp only [World.step, hp] at h
    cases h1 : World.applyForcesPhase w.bodies with
    | error e => simp [h1] at h
    | ok b1 =>
      obtain ⟨hall, hb1⟩ := applyForcesPhase_ok_inv h1
      subst hb1
      have h2 : World.integrateVelocitiesPhase w.bodies = .ok w.bodies := by
        rw [integrateVelocitiesPhase_eq]; exact h1
      have h3 := islandsPhase_allStatic hall
      have h4 : World.integratePositionsPhase w.bodies = .ok w.bodies := by
        rw [integratePositionsPhase_eq]; exact h1
      simp only [h1, h2, h3, h4] at h
      simp only [Except.ok.injEq] at h
      subst h
      exact ⟨rfl, rfl, rfl⟩

/-- C9 witness: the accumulator-preservation theorem applied to a
completing step on a concrete all-static world. -/
theorem step_ok_bodies_unchanged_witness :
    World.step c9World none = .ok c9WorldAfter ∧
    c9WorldAfter.bodies.map Body.force = c9World.bodies.map Body.force :=
  have hstep : World.step c9World none = .ok c9WorldAfter := by with_unfolding_all decide
  ⟨hstep, (step_ok_bodies_unchanged c9World none c9WorldAfter hstep).2.1⟩

/-- C9 counterexample: a completed step leaves a static body's non-zero
force accumulator (1, 1) and torque accumulator 1 — loaded by
Body.apply_force((1,1), point=(1,0)) — in place, not cleared to zero. -/
theorem step_keeps_nonzero_accumulators :
    Body.applyForce { c9Body with force := Vec2.zero, torque := 0 } ⟨1, 1⟩ ⟨1, 0⟩
      = c9Body ∧
    World.step c9World none = .ok c9WorldAfter ∧
    c9WorldAfter.bodies.map Body.force = [⟨1, 1⟩] ∧
    c9WorldAfter.bodies.map Body.torque = [1] ∧
    (⟨1, 1⟩ : Vec2) ≠ Vec2.zero := by
  with_unfolding_all decide

/-- C1 (code_bug): the free-fall scenario cannot execute — the very first
World.step call on the free-fall world raises AttributeError because the
force loop reads body.is_sleeping, which Body.__init__ never defines; the
positions and velocities the claim predicts after 60 steps are never
produced.  Moreover Body.integrate_velocity does not integrate velocity:
even with gravity accumulated into the force field it returns the
velocity unchanged. -/
theorem free_fall_first_step_raises :
    Body.init (.circle ⟨0, 0⟩ 1) 1 ⟨0, 10⟩ ⟨0, 0⟩ 0 0 false = .ok ffBody ∧
    World.addBody (World.init ⟨0, -981 / 100⟩) ffBody = .ok ffWorld ∧
    World.step ffWorld (some (1 / 60)) = .error .attributeError ∧
    (Body.integrateVelocity
        (Body.applyForce ffBody ⟨0, -981 / 100⟩ Vec2.zero) (1 / 60)).velocity
      = ffBody.velocity := by
  with_unfolding_all decide

/-- C3 (code_bug): warm starting is not a single pre-iteration apply with
delta-only iterations: each Contact.resolve call folds the stored
accumulated impulse into its target and applies the FULL resulting
impulse.  On the second call the accumulated impulse is unchanged (the
delta the claim allows is 0), yet the body velocity changes again by the
full 13/25; the solver loop runs exactly these two resolves before its
convergence break. -/
theorem resolve_reapplies_full_accumulated_impulse :
    (Contact.resolve c3State (1 / 60)).contact.normalImpulse = 13 / 25 ∧
    (Contact.resolve c3State (1 / 60)).bodyB.velocity = ⟨0, -12 / 25⟩ ∧
    (Contact.resolve (Contact.resolve c3State (1 / 60)) (1 / 60)).contact.normalImpulse
      = 13 / 25 ∧
    (Contact.resolve (Contact.resolve c3State (1 / 60)) (1 / 60)).bodyB.velocity
      = ⟨0, 1 / 25⟩ ∧
    ContactSolver.solveVelocityConstraintsOne 40 (1 / 60) c3State
      = Contact.resolve (Contact.resolve c3State (1 / 60)) (1 / 60) := by
  with_unfolding_all decide

/-- C4 counterexample: after three resolve calls within one velocity pass
on the sliding-contact state, the stored impulses violate
|J_t| ≤ mu * J_n: the normal impulse is zeroed once the bodies separate
but the tangent impulse 26/125 persists. -/
theorem resolve_tangent_cap_violated :
    (Contact.resolve (Contact.resolve (Contact.resolve c4State (1 / 60)) (1 / 60))
        (1 / 60)).contact.normalImpulse = 0 ∧
    (Contact.resolve (Contact.resolve (Contact.resolve c4State (1 / 60)) (1 / 60))
        (1 / 60)).contact.tangentImpulse = 26 / 125 ∧
    ¬ (|(Contact.resolve (Contact.resolve (Contact.resolve c4State (1 / 60)) (1 / 60))
          (1 / 60)).contact.tangentImpulse| ≤
        (Contact.resolve (Contact.resolve (Contact.resolve c4State (1 / 60)) (1 / 60))
          (1 / 60)).contact.friction *
        (Contact.resolve (Contact.resolve (Contact.resolve c4State (1 / 60)) (1 / 60))
          (1 / 60)).contact.normalImpulse) := by
  with_unfolding_all decide

/-- C4 (amended): of the claimed contact invariants, J_n ≥ 0 does hold —
Contact.resolve preserves non-negativity of the accumulated normal
impulse (it stores either 0 or a value clamped through max(., 0)); the
tangent-cap invariant |J_t| ≤ mu * J_n is not maintained. -/
theorem resolve_normalImpulse_nonneg (s : ContactState) (dt : ℚ)
    (h : 0 ≤ s.contact.normalImpulse) :
    0 ≤ (Contact.resolve s dt).contact.normalImpulse := by
  simp only [Contact.resolve]
  split
  · exact h
  · split
    · simp
    · split
      · simp [le_max_right]
      · simp [le_max_right]

/-- C4 witness: non-negativity applied at the concrete sliding contact. -/
theorem resolve_normalImpulse_nonneg_witness :
    0 ≤ c4State.contact.normalImpulse ∧
    0 ≤ (Contact.resolve c4State (1 / 60)).contact.normalImpulse :=
  ⟨by with_unfolding_all decide, resolve_normalImpulse_nonneg c4State (1 / 60) (by with_unfolding_all decide)⟩

/-- C5 counterexample: at penetration 1/100 (below the slop 2/100) and
dt = 1/60 the claimed formula -(beta/dt) * max(0, penetration - slop)
gives 0, but Contact.resolve computes
-(BAUMGARTE/dt) * max(0, penetration + POSITION_SLOP) = -18/25. -/
theorem baumgarte_bias_uses_plus_slop :
    resolveBias (1 / 100) (1 / 60) = -(18 / 25) ∧
    specBaumgarteBias (1 / 100) (1 / 60) = 0 ∧
    resolveBias (1 / 100) (1 / 60) ≠ specBaumgarteBias (1 / 100) (1 / 60) := by
  with_unfolding_all decide

/-- C5 (amended): on the main solve path (inverse-mass sum not negligible,
band-aid branches inactive, bodies not separating) the stored normal
impulse equals max(-(1+e)*v_n + bias + J_old, 0) with
bias = -(BAUMGARTE/dt) * max(0, penetration + POSITION_SLOP); the bias is
zero exactly when penetration ≤ -POSITION_SLOP, so it is nonzero for any
positive penetration, including penetrations below the slop. -/
theorem resolve_impulse_target_formula (s : ContactState) (dt : ℚ)
    (h1 : ¬ |s.bodyA.inverseMass + s.bodyB.inverseMass| < 1 / 1000000)
    (h2 : ¬ (|(s.bodyB.velocity - s.bodyA.velocity).dot s.contact.normal| < 1 / 10 ∧
      s.contact.penetration > 1 / 100))
    (h3 : ¬ (s.contact.penetration > 1 / 100 ∧
      (s.bodyB.velocity - s.bodyA.velocity).dot s.contact.normal < 1 / 10))
    (h4 : ¬ (s.bodyB.velocity - s.bodyA.velocity).dot s.contact.normal > 1 / 100)
    (h5 : 0 < dt) :
    (Contact.resolve s dt).contact.normalImpulse =
      max (-(1 + min (s.bodyA.restitution.getD s.contact.restitution)
            (s.bodyB.restitution.getD s.contact.restitution)) *
          ((s.bodyB.velocity - s.bodyA.velocity).dot s.contact.normal) +
          resolveBias s.contact.penetration dt + s.contact.normalImpulse) 0 ∧
    (resolveBias s.contact.penetration dt = 0 ↔
      s.contact.penetration ≤ -POSITION_SLOP) := by
  constructor
  · simp only [Contact.resolve]
    rw [if_neg h1, if_neg h2, if_neg h3, if_neg h4]
    split
    · rfl
    · rfl
  · unfold resolveBias
    have hneg : -BAUMGARTE / dt < 0 := by
      apply div_neg_of_neg_of_pos
      · norm_num [BAUMGARTE]
      · exact h5
    constructor
    · intro h0
      rcases mul_eq_zero.mp h0 with hf | hm
      · exact absurd hf (ne_of_lt hneg)
      · have hx : s.contact.penetration + POSITION_SLOP ≤ 0 := max_eq_left_iff.mp hm
        linarith
    · intro hle
      have hz : max 0 (s.contact.penetration + POSITION_SLOP) = 0 :=
        max_eq_left (by linarith)
      rw [hz, mul_zero]

/-- C5 witness: the formula applied at the concrete contact state with
v_n = -1, penetration 0 and dt = 1/60. -/
theorem resolve_impulse_target_formula_witness :
    (¬ |c5State.bodyA.inverseMass + c5State.bodyB.inverseMass| < 1 / 1000000) ∧
    ((Contact.resolve c5State (1 / 60)).contact.normalImpulse =
      max (-(1 + min (c5State.bodyA.restitution.getD c5State.contact.restitution)
            (c5State.bodyB.restitution.getD c5State.contact.restitution)) *
          ((c5State.bodyB.velocity - c5State.bodyA.velocity).dot c5State.contact.normal) +
          resolveBias c5State.contact.penetration (1 / 60) + c5State.contact.normalImpulse) 0 ∧
    (resolveBias c5State.contact.penetration (1 / 60) = 0 ↔
      c5State.contact.penetration ≤ -POSITION_SLOP)) :=
  ⟨by with_unfolding_all decide,
   resolve_impulse_target_formula c5State (1 / 60) (by with_unfolding_all decide)
     (by with_unfolding_all decide) (by with_unfolding_all decide)
     (by with_unfolding_all decide) (by with_unfolding_all decide)⟩

/-- C6 counterexample: for the overlapping unit squares of spec scenario 4
the manifold normal is (0, 1) for BOTH argument orders; swapping the
arguments does not negate the normal (the depth does match). -/
theorem sat_swap_normal_not_negated :
    (getCollisionManifold squareA squareB).map Manifold.normal = some ⟨0, 1⟩ ∧
    (getCollisionManifold squareB squareA).map Manifold.normal = some ⟨0, 1⟩ ∧
    ((getCollisionManifold squareA squareB).map Manifold.normal ≠
      (getCollisionManifold squareB squareA).map fun m => -m.normal) ∧
    (getCollisionManifold squareA squareB).map Manifold.depth =
      (getCollisionManifold squareB squareA).map Manifold.depth := by
  with_unfolding_all decide

/-- C6 (amended): the per-axis overlap is symmetric in the two shapes (so
the minimum overlap, and with it the depth, is order-independent over the
shared candidate axis ring), and on the two-squares input the swapped
manifold has the SAME normal and depth — the normal is preserved, not
negated; no A-into-B orientation is enforced. -/
theorem sat_swap_preserves_overlap_and_normal :
    (∀ v1 v2 axis, axisOverlap v1 v2 axis = axisOverlap v2 v1 axis) ∧
    (getCollisionManifold squareA squareB).map Manifold.normal =
      (getCollisionManifold squareB squareA).map Manifold.normal ∧
    (getCollisionManifold squareA squareB).map Manifold.depth =
      (getCollisionManifold squareB squareA).map Manifold.depth := by
  refine ⟨fun v1 v2 axis => ?_, by with_unfolding_all decide,
    by with_unfolding_all decide⟩
  unfold axisOverlap
  dsimp only
  rw [min_comm, max_comm]

/-- C7 (code_bug): the transform round trip never returns a point:
Transform.transform_point always raises TypeError, because
Mat22.__mul__ treats the Vec2 argument as a scalar and Mat22.__init__
then calls float() on Vec2 entries; hence
inverse_transform_point(transform_point(p)) = p never holds for any
transform or point. -/
theorem transform_round_trip_raises_typeError (cosF sinF : ℚ → ℚ)
    (t : Transform) (p : Vec2) :
    transformRoundTrip cosF sinF t p = .error .typeError ∧
    transformPoint cosF sinF t p = .error .typeError :=
  ⟨rfl, rfl⟩

/-- C8 witness: the broadphase pair characterization applied to two
concrete overlapping AABBs. -/
theorem broadphasePairs_mem_iff_witness :
    ((0, 1) ∈ broadphasePairs [w8A, w8B]) ∧ aabbOverlap w8A w8B = true :=
  ⟨(broadphasePairs_mem_iff (by decide) rfl rfl).mpr (by with_unfolding_all decide),
   by with_unfolding_all decide⟩

/-- C10 counterexample: removing a body or joint that is not owned by the
world raises nothing at all — the call returns normally (only a warning
is logged) with the world unchanged, instead of reporting NotFound. -/
theorem remove_not_owned_returns_ok :
    World.removeBody c10World c10ForeignBody = .ok c10World ∧
    World.removeJoint c10World c10ForeignJoint = .ok c10World ∧
    c10ForeignBody ∉ c10World.bodies ∧ c10ForeignJoint ∉ c10World.joints := by
  with_unfolding_all decide

/-- C10 (amended): removing a body or joint not owned by this World does
NOT raise; remove_body and remove_joint log a warning and return
normally, leaving the body list, joint list and broadphase contents
identical to before the call. -/
theorem remove_not_owned_leaves_world_unchanged (w : World) (b : Body) (j : Joint)
    (hb : b ∉ w.bodies) (hj : j ∉ w.joints) :
    World.removeBody w b = .ok w ∧ World.removeJoint w j = .ok w := by
  constructor
  · unfold World.removeBody
    rw [if_neg hb]
  · unfold World.removeJoint
    rw [if_neg hj]

/-- C10 witness: the no-raise removal theorem applied to a concrete world
and a foreign body and joint. -/
theorem remove_not_owned_leaves_world_unchanged_witness :
    World.removeBody c10World c10ForeignBody = .ok c10World ∧
    World.removeJoint c10World c10ForeignJoint = .ok c10World :=
  remove_not_owned_leaves_world_unchanged c10World c10ForeignBody c10ForeignJoint
    (by with_unfolding_all decide) (by with_unfolding_all decide)
